import Mathlib

/-!
Verification of the MoltWorker gateway process supervisor
(`src/gateway/process.ts`) and the access-control middleware
(`src/auth/middleware.ts`).

The TypeScript code is embedded shallowly:

* effectful host calls (`listProcesses`, `waitForPort`, `kill`,
  `startProcess`, `getLogs`, the settle delay) are modelled by an oracle
  `HostEnv` recording the result each call would produce, and each
  function returns its value together with the list of `Event`s it
  performed, in order;
* JavaScript thrown values are modelled by `JSError` (whether the value
  is an `Error` instance, and its message);
* JavaScript string truthiness (`undefined` and `""` are falsy) is
  modelled by `truthy` on `Option String`;
* string operations (`includes`, `startsWith`, `split`, `trim`) are
  re-implemented by structural recursion on the character list so that
  concrete instances evaluate inside the kernel.
-/

set_option maxRecDepth 10000

namespace MoltWorker

deriving instance DecidableEq for Except

/-- A JavaScript thrown value: whether it is an `Error` instance, and its
`message` property. -/
structure JSError where
  isError : Bool
  message : String
deriving DecidableEq, Repr

/-- A sandbox process as reported by the host: host-assigned id, launch
command line and status string (`"starting"`, `"running"`, `"exited"`, ...). -/
structure Process where
  id : String
  command : String
  status : String
deriving DecidableEq, Repr

/-- Result of `getLogs()`: optional stdout and stderr text (`none` models
an absent/undefined field). -/
structure Logs where
  stdout : Option String
  stderr : Option String
deriving DecidableEq, Repr

/-- JavaScript string truthiness on an optional string: `undefined`/`null`
and `""` are falsy; a non-empty string is truthy (and is the value). -/
def truthy : Option String → Option String
  | none => none
  | some s => if s = "" then none else some s

/-- Test whether `l` starts with `pat` (structural
re-implementation of string prefix testing on character lists, so that
concrete instances reduce in the kernel). -/
def charsStart : List Char → List Char → Bool
  | [], _ => true
  | _ :: _, [] => false
  | a :: as, b :: bs => a == b && charsStart as bs

/-- Test whether `pat` occurs as a contiguous subsequence of `l` (the
semantics of JavaScript string inclusion). -/
def charsSearch (pat : List Char) : List Char → Bool
  | [] => pat.isEmpty
  | c :: t => charsStart pat (c :: t) || charsSearch pat t

/-- JavaScript substring test: `strIncludes s pat` models `s.includes(pat)`. -/
def strIncludes (s pat : String) : Bool :=
  charsSearch pat.data s.data

/-- JavaScript prefix test: `strStarts s pat` models `s.startsWith(pat)`. -/
def strStarts (s pat : String) : Bool :=
  charsStart pat.data s.data

/-! ## src/gateway/process.ts -/

/-- Modelled from the spec: `src/config.ts` is not among the reviewed
sources; the spec (§8) fixes the gateway port at 8080. No claim depends on
the numeric value, only on the same constant being used everywhere. -/
def MOLTBOT_PORT : Nat := 8080

/-- Modelled from the spec: `src/config.ts` is not among the reviewed
sources; the spec (§8) fixes the startup timeout at 30 s. No claim depends
on the numeric value, only on the same constant being used everywhere. -/
def STARTUP_TIMEOUT_MS : Nat := 30000

/-- One observable action performed by `ensureMoltbotGateway` /
`findExistingMoltbotProcess`, in the order the code performs it. -/
inductive Event where
  | mountR2
  | listProcesses
  | logError (context : String)
  | waitForPort (procId : String) (port : Nat) (timeoutMs : Nat)
  | kill (procId : String)
  | startProcess (command : String)
  | settleDelay (ms : Nat)
  | getLogs (procId : String)
deriving DecidableEq, Repr

/-- Oracle for the sandbox host: the result each effectful call of one
`ensureMoltbotGateway` invocation would produce. -/
structure HostEnv where
  /-- result of `sandbox.listProcesses()` -/
  listResult : Except JSError (List Process)
  /-- result of `existingProcess.waitForPort(...)` -/
  existingWaitResult : Except JSError Unit
  /-- result of `existingProcess.kill()` -/
  killResult : Except JSError Unit
  /-- result of `sandbox.startProcess(<gateway command>, ...)` -/
  startResult : Except JSError Process
  /-- result of `process.waitForPort(...)` on the new process -/
  newWaitResult : Except JSError Unit
  /-- result of `process.getLogs()` on the new process (success path) -/
  newGetLogsResult : Except JSError Logs
  /-- result of starting the auxiliary log-dump process -/
  catStartResult : Except JSError Process
  /-- result of `readLog.getLogs()` on the auxiliary cat process -/
  catGetLogsResult : Except JSError Logs

/-- The gateway signature test of process.ts lines 19-21: the command
includes `start-moltbot.sh` or includes `clawdbot gateway`. -/
def isGatewayProcess (p : Process) : Bool :=
  strIncludes p.command "start-moltbot.sh" || strIncludes p.command "clawdbot gateway"

/-- The excluded-command test of process.ts lines 22-24: the command
includes `clawdbot devices` or includes `clawdbot --version`. -/
def isCliCommand (p : Process) : Bool :=
  strIncludes p.command "clawdbot devices" || strIncludes p.command "clawdbot --version"

/-- The `for` loop of `findExistingMoltbotProcess` (process.ts lines
16-31): return the first process that matches the gateway signature, is
not an excluded CLI command, and has status `starting` or `running`;
otherwise keep scanning. -/
def findLoop : List Process → Option Process
  | [] => none
  | p :: rest =>
    if isGatewayProcess p && !isCliCommand p then
      if p.status == "starting" || p.status == "running" then some p
      else findLoop rest
    else findLoop rest

/-- Value part of `findExistingMoltbotProcess` (process.ts lines 13-36):
a listing error is caught and treated as no process found. -/
def findExistingMoltbotProcess : Except JSError (List Process) → Option Process
  | .error _ => none
  | .ok ps => findLoop ps

/-- Events performed by `findExistingMoltbotProcess`: the listing call,
plus the `console.log` in the `catch` when listing fails. -/
def discoveryEvents : Except JSError (List Process) → List Event
  | .error _ => [.listProcesses, .logError "Could not list processes"]
  | .ok _ => [.listProcesses]

/-- The launch command for a new gateway (process.ts line 83). -/
def gatewayCommand : String :=
  "bash -c \"/usr/local/bin/start-moltbot.sh > /tmp/moltbot-startup.log 2>&1\""

/-- The auxiliary read-only command used to dump the startup log file
(process.ts line 112). -/
def catCommand : String := "cat /tmp/moltbot-startup.log"

/-- The log text selection of process.ts line 116: stdout if truthy, else
stderr if truthy, else the placeholder text. -/
def fullLogOf (l : Logs) : String :=
  (truthy l.stdout).getD ((truthy l.stderr).getD "(no log output)")

/-- The rethrow guard of process.ts line 120: the thrown value is an
`Error` instance and its message starts with `Moltbot gateway failed`. -/
def isGatewayFailedError (err : JSError) : Bool :=
  err.isError && strStarts err.message "Moltbot gateway failed"

/-- The diagnostic-recovery `catch` block of process.ts lines 108-125,
given the error `e` caught from the readiness wait: spawn
`cat /tmp/moltbot-startup.log`, wait 3000 ms, read the logs of the cat
process, and throw a descriptive error built from them; if any of that
fails, rethrow the descriptive error when it was the thing thrown, and
the original error `e` otherwise. Returns the thrown error together with
the events this block performs. -/
def fallbackDiagnostics (catStart : Except JSError Process)
    (catGetLogs : Except JSError Logs) (e : JSError) :
    Except JSError Process × List Event :=
  match catStart with
  | .error logErr =>
    if isGatewayFailedError logErr then
      (.error logErr, [.startProcess catCommand])
    else
      (.error e, [.startProcess catCommand, .logError "Failed to read log file"])
  | .ok readLog =>
    match catGetLogs with
    | .error logErr =>
      if isGatewayFailedError logErr then
        (.error logErr, [.startProcess catCommand, .settleDelay 3000, .getLogs readLog.id])
      else
        (.error e, [.startProcess catCommand, .settleDelay 3000, .getLogs readLog.id,
          .logError "Failed to read log file"])
    | .ok logContent =>
      (.error ⟨true, "Moltbot gateway failed to start. Log: " ++ fullLogOf logContent⟩,
        [.startProcess catCommand, .settleDelay 3000, .getLogs readLog.id])

/-- Process.ts lines 79-131: start a new gateway process, propagate a
start error verbatim, then wait for readiness; on readiness success also
read the logs of the new process (line 105, still inside the `try`); on any
failure inside the `try`, run the diagnostic-recovery `catch` block. -/
def startNewGateway (host : HostEnv) : Except JSError Process × List Event :=
  match host.startResult with
  | .error startErr => (.error startErr, [.startProcess gatewayCommand])
  | .ok process =>
    match host.newWaitResult with
    | .ok _ =>
      match host.newGetLogsResult with
      | .ok _ =>
        (.ok process,
          [.startProcess gatewayCommand,
           .waitForPort process.id MOLTBOT_PORT STARTUP_TIMEOUT_MS,
           .getLogs process.id])
      | .error e =>
        ((fallbackDiagnostics host.catStartResult host.catGetLogsResult e).1,
          [.startProcess gatewayCommand,
           .waitForPort process.id MOLTBOT_PORT STARTUP_TIMEOUT_MS,
           .getLogs process.id] ++
            (fallbackDiagnostics host.catStartResult host.catGetLogsResult e).2)
    | .error e =>
      ((fallbackDiagnostics host.catStartResult host.catGetLogsResult e).1,
        [.startProcess gatewayCommand,
         .waitForPort process.id MOLTBOT_PORT STARTUP_TIMEOUT_MS] ++
          (fallbackDiagnostics host.catStartResult host.catGetLogsResult e).2)

/-- Model of `ensureMoltbotGateway` (process.ts lines 50-132): mount R2 storage
(implemented in `src/gateway/r2.ts`, outside the reviewed sources;
recorded as an event), discover an existing gateway process, wait for it
with the full startup timeout and reuse it on success; on wait failure
best-effort kill it (a kill error is only logged) and fall through to
starting a new gateway. -/
def ensureMoltbotGateway (host : HostEnv) : Except JSError Process × List Event :=
  match findExistingMoltbotProcess host.listResult with
  | some existing =>
    match host.existingWaitResult with
    | .ok _ =>
      (.ok existing,
        Event.mountR2 :: discoveryEvents host.listResult ++
          [.waitForPort existing.id MOLTBOT_PORT STARTUP_TIMEOUT_MS])
    | .error _ =>
      ((startNewGateway host).1,
        Event.mountR2 :: discoveryEvents host.listResult ++
          [.waitForPort existing.id MOLTBOT_PORT STARTUP_TIMEOUT_MS,
           .kill existing.id] ++
          (match host.killResult with
           | .ok _ => []
           | .error _ => [Event.logError "Failed to kill process"]) ++
          (startNewGateway host).2)
  | none =>
    ((startNewGateway host).1,
      Event.mountR2 :: discoveryEvents host.listResult ++ (startNewGateway host).2)

/-! ## src/auth/middleware.ts -/

/-- The worker environment bindings read by the middleware. Every binding
is an optional string (`none` models an unset variable). -/
structure MoltbotEnv where
  DEV_MODE : Option String := none
  E2E_TEST_MODE : Option String := none
  CF_ACCESS_TEAM_DOMAIN : Option String := none
  CF_ACCESS_AUD : Option String := none
  BASIC_AUTH_USER : Option String := none
  BASIC_AUTH_PASS : Option String := none
deriving DecidableEq, Repr

/-- Model of `isDevMode` (middleware.ts lines 18-20). -/
def isDevMode (env : MoltbotEnv) : Bool :=
  env.DEV_MODE == some "true"

/-- Model of `isE2ETestMode` (middleware.ts lines 25-27). -/
def isE2ETestMode (env : MoltbotEnv) : Bool :=
  env.E2E_TEST_MODE == some "true"

/-- The parts of an incoming request the middleware reads: the
`CF-Access-JWT-Assertion` header and the raw `Cookie` header. -/
structure Request where
  jwtHeader : Option String
  cookieHeader : Option String
deriving DecidableEq, Repr

/-- JavaScript string split with a one-character separator, on character
lists. -/
def splitOnChar (sep : Char) : List Char → List (List Char)
  | [] => [[]]
  | c :: rest =>
    if c == sep then [] :: splitOnChar sep rest
    else
      match splitOnChar sep rest with
      | [] => [[c]]
      | h :: t => (c :: h) :: t

/-- JavaScript `String.prototype.trim` on character lists (whitespace on
both ends removed). -/
def charTrim (l : List Char) : List Char :=
  ((l.dropWhile Char.isWhitespace).reverse.dropWhile Char.isWhitespace).reverse

/-- The cookie arm of `extractJWT` (middleware.ts lines 34-37): split the
raw `Cookie` header on `;`, find the first cookie whose trimmed text
starts with `CF_Authorization=`, and take index 1 of its split on `=`. -/
def cookieJWT (h : String) : Option String :=
  (((splitOnChar ';' h.data).find?
      (fun c => charsStart "CF_Authorization=".data (charTrim c))).bind
    (fun c => (splitOnChar '=' c)[1]?)).map String.mk

/-- Model of `extractJWT` (middleware.ts lines 32-40): the header if
truthy, else the cookie value if truthy, else nothing. -/
def extractJWT (req : Request) : Option String :=
  match truthy req.jwtHeader with
  | some j => some j
  | none => truthy (req.cookieHeader.bind cookieJWT)

/-- The payload returned by `verifyAccessJWT` on success. -/
structure AccessPayload where
  email : String
  name : String
deriving DecidableEq, Repr

/-- The `accessUser` context value set by the middleware. -/
structure AccessUser where
  email : String
  name : String
deriving DecidableEq, Repr

/-- Response type of `AccessMiddlewareOptions`: json or html. -/
inductive RespType where
  | json
  | html
deriving DecidableEq, Repr

/-- Model of `AccessMiddlewareOptions` (middleware.ts lines 8-13). -/
structure AccessMiddlewareOptions where
  type : RespType
  redirectOnMissing : Bool := false
deriving DecidableEq, Repr

/-- What one invocation of the middleware does with a request. -/
inductive MWOutcome where
  /-- The context value `accessUser` was set to `user` and the downstream
  handler invoked. -/
  | next (user : AccessUser)
  /-- A redirect response was returned; no downstream handler. -/
  | redirect (url : String) (status : Nat)
  /-- A JSON response was returned; no downstream handler. -/
  | jsonResp (status : Nat) (body : List (String × String))
  /-- An HTML response was returned; no downstream handler. -/
  | htmlResp (status : Nat) (body : String)
  /-- Control was delegated to the `basicAuth` wrapper of hono with these
  credentials, after setting `accessUser` to `user`. -/
  | basicAuthDelegate (username password : String) (user : AccessUser)
deriving DecidableEq, Repr

/-- The `c.html` body of middleware.ts lines 85-93 (missing token). -/
def missingTokenHtml (teamDomain : String) : String :=
  "\n            <html>\n              <body>\n                <h1>Unauthorized</h1>\n                <p>Missing Cloudflare Access token.</p>\n                <a href=\"https://" ++ teamDomain ++ "\">Login</a>\n              </body>\n            </html>\n          "

/-- The `c.html` body of middleware.ts lines 111-119 (invalid session). -/
def invalidSessionHtml (teamDomain : String) : String :=
  "\n            <html>\n              <body>\n                <h1>Unauthorized</h1>\n                <p>Your Cloudflare Access session is invalid or expired.</p>\n                <a href=\"https://" ++ teamDomain ++ "\">Login again</a>\n              </body>\n            </html>\n          "

/-- The `c.html` body of middleware.ts lines 142-149 (not configured). -/
def notConfiguredHtml : String :=
  "\n        <html>\n          <body>\n            <h1>Authentication Not Configured</h1>\n            <p>Set CF_ACCESS_TEAM_DOMAIN/CF_ACCESS_AUD (Zero Trust) or BASIC_AUTH_USER/BASIC_AUTH_PASS (Basic Auth) environment variables.</p>\n          </body>\n        </html>\n      "

/-- The Cloudflare Access branch of the middleware (middleware.ts lines
70-122), reached when both `CF_ACCESS_TEAM_DOMAIN` and `CF_ACCESS_AUD`
are truthy. The oracle `verifyAccessJWT` stands for the verification in
the jwt module (arguments: jwt, teamDomain, expectedAud). -/
def cfAccessCheck (opts : AccessMiddlewareOptions) (req : Request)
    (verifyAccessJWT : String → String → String → Except JSError AccessPayload)
    (teamDomain expectedAud : String) : MWOutcome :=
  match extractJWT req with
  | none =>
    if opts.type == .html && opts.redirectOnMissing then
      .redirect ("https://" ++ teamDomain) 302
    else
      match opts.type with
      | .json =>
        .jsonResp 401
          [("error", "Unauthorized"),
           ("hint", "Missing Cloudflare Access JWT. Ensure this route is protected by Cloudflare Access.")]
      | .html => .htmlResp 401 (missingTokenHtml teamDomain)
  | some jwt =>
    match verifyAccessJWT jwt teamDomain expectedAud with
    | .ok payload => .next ⟨payload.email, payload.name⟩
    | .error err =>
      match opts.type with
      | .json =>
        .jsonResp 401
          [("error", "Unauthorized"),
           ("details", if err.isError then err.message else "JWT verification failed")]
      | .html => .htmlResp 401 (invalidSessionHtml teamDomain)

/-- Middleware.ts lines 124-150: the Basic Auth fallback and the
not-configured responses. -/
def basicAuthOrNotConfigured (opts : AccessMiddlewareOptions) (env : MoltbotEnv) : MWOutcome :=
  match truthy env.BASIC_AUTH_USER, truthy env.BASIC_AUTH_PASS with
  | some u, some p => .basicAuthDelegate u p ⟨"user@basic-auth", "Authorized User"⟩
  | _, _ =>
    match opts.type with
    | .json =>
      .jsonResp 500
        [("error", "Authentication not configured"),
         ("hint", "Set CF_ACCESS_TEAM_DOMAIN/CF_ACCESS_AUD for Zero Trust, or BASIC_AUTH_USER/BASIC_AUTH_PASS for Basic Auth.")]
    | .html => .htmlResp 500 notConfiguredHtml

/-- Model of `createAccessMiddleware` (middleware.ts lines 56-152), as the pure
function from options, environment, request and the JWT-verification
oracle to what the produced middleware does with that request. -/
def createAccessMiddleware (opts : AccessMiddlewareOptions) (env : MoltbotEnv) (req : Request)
    (verifyAccessJWT : String → String → String → Except JSError AccessPayload) : MWOutcome :=
  if isDevMode env || isE2ETestMode env then
    .next ⟨"dev@localhost", "Dev User"⟩
  else
    match truthy env.CF_ACCESS_TEAM_DOMAIN, truthy env.CF_ACCESS_AUD with
    | some teamDomain, some expectedAud => cfAccessCheck opts req verifyAccessJWT teamDomain expectedAud
    | _, _ => basicAuthOrNotConfigured opts env

/-- A 401 response (JSON or HTML), as produced by the Cloudflare Access
branch on a missing or rejected JWT. -/
def is401 (o : MWOutcome) : Prop :=
  (∃ b, o = .jsonResp 401 b) ∨ (∃ b, o = .htmlResp 401 b)

/-! ## Helper lemmas -/

/-- Discovery performs only the listing call and, on a listing error, one
error log. -/
theorem mem_discoveryEvents (lr : Except JSError (List Process)) (ev : Event)
    (h : ev ∈ discoveryEvents lr) :
    ev = .listProcesses ∨ ev = .logError "Could not list processes" := by
  cases lr with
  | error e => simp [discoveryEvents] at h; tauto
  | ok ps => simp [discoveryEvents] at h; tauto

/-- If discovery returned a process, the listing call succeeded. -/
theorem find_some_ok (lr : Except JSError (List Process)) (p : Process)
    (h : findExistingMoltbotProcess lr = some p) : ∃ ps, lr = .ok ps := by
  cases lr with
  | error e => simp [findExistingMoltbotProcess] at h
  | ok ps => exact ⟨ps, rfl⟩

/-- The start-a-new-gateway phase never kills anything. -/
theorem startNew_no_kill (host : HostEnv) (pid : String) :
    Event.kill pid ∉ (startNewGateway host).2 := by
  obtain ⟨lr, ew, kr, sr, nw, ngl, cs, cgl⟩ := host
  rcases sr with e | p <;> rcases nw with e2 | u <;> rcases ngl with e3 | L <;>
    rcases cs with e4 | q <;> rcases cgl with e5 | L2 <;>
    simp [startNewGateway, fallbackDiagnostics]
  all_goals split <;> simp

/-- The start-a-new-gateway phase begins by starting the gateway
process. -/
theorem startNew_head (host : HostEnv) :
    ∃ tl, (startNewGateway host).2 = Event.startProcess gatewayCommand :: tl := by
  obtain ⟨lr, ew, kr, sr, nw, ngl, cs, cgl⟩ := host
  rcases sr with e | p <;> rcases nw with e2 | u <;> rcases ngl with e3 | L <;>
    rcases cs with e4 | q <;> rcases cgl with e5 | L2 <;>
    simp [startNewGateway, fallbackDiagnostics]

/-! ## Claims -/

/-- C1: when discovery finds an existing process, `ensureMoltbotGateway`
waits for its readiness with the full startup timeout
(`STARTUP_TIMEOUT_MS`, the same constant used for a fresh start), and on
readiness success returns that existing process unchanged, performing no
kill and starting no process (outcome = reused). -/
theorem claim1_reuse_existing (host : HostEnv) (p : Process)
    (hf : findExistingMoltbotProcess host.listResult = some p)
    (hw : host.existingWaitResult = .ok ()) :
    (ensureMoltbotGateway host).1 = .ok p ∧
    (ensureMoltbotGateway host).2 =
      [Event.mountR2, Event.listProcesses,
       Event.waitForPort p.id MOLTBOT_PORT STARTUP_TIMEOUT_MS] ∧
    (∀ pid, Event.kill pid ∉ (ensureMoltbotGateway host).2) ∧
    (∀ cmd, Event.startProcess cmd ∉ (ensureMoltbotGateway host).2) := by
  obtain ⟨ps, hl⟩ := find_some_ok host.listResult p hf
  rw [hl] at hf
  unfold ensureMoltbotGateway
  rw [hl, hf, hw]
  refine ⟨rfl, by simp [discoveryEvents], ?_, ?_⟩ <;> intro x <;> simp [discoveryEvents]

def procC1 : Process := ⟨"g1", "clawdbot gateway --port 8080", "running"⟩

def hostC1 : HostEnv :=
  { listResult := .ok [procC1], existingWaitResult := .ok (), killResult := .ok (),
    startResult := .ok procC1, newWaitResult := .ok (),
    newGetLogsResult := .ok ⟨none, none⟩, catStartResult := .ok procC1,
    catGetLogsResult := .ok ⟨none, none⟩ }

theorem claim1_witness :
    (ensureMoltbotGateway hostC1).1 = .ok procC1 ∧
    (ensureMoltbotGateway hostC1).2 =
      [Event.mountR2, Event.listProcesses,
       Event.waitForPort "g1" MOLTBOT_PORT STARTUP_TIMEOUT_MS] ∧
    Event.kill "g1" ∉ (ensureMoltbotGateway hostC1).2 ∧
    Event.startProcess gatewayCommand ∉ (ensureMoltbotGateway hostC1).2 := by
  have h := claim1_reuse_existing hostC1 procC1 (by decide) rfl
  exact ⟨h.1, h.2.1, h.2.2.1 "g1", h.2.2.2 gatewayCommand⟩

/-- C2: a listed process whose command matches an excluded-command
pattern is never returned by discovery, even when it also matches the
gateway signature: whatever `findExistingMoltbotProcess` returns
satisfies `isCliCommand _ = false`. -/
theorem claim2_exclusion_precedence (lr : Except JSError (List Process)) (p : Process)
    (h : findExistingMoltbotProcess lr = some p) : isCliCommand p = false := by
  obtain ⟨ps, hl⟩ := find_some_ok lr p h
  subst hl
  simp only [findExistingMoltbotProcess] at h
  induction ps with
  | nil => simp [findLoop] at h
  | cons q rest ih =>
    unfold findLoop at h
    rcases hg : isGatewayProcess q && !isCliCommand q with _ | _
    · rw [hg] at h
      simp only [Bool.false_eq_true, if_false] at h
      exact ih h
    · rw [hg] at h
      simp only [if_true] at h
      split at h
      · cases h
        have h2 := (Bool.and_eq_true _ _).mp hg
        simpa using h2.2
      · exact ih h

def procBothC2 : Process := ⟨"b1", "clawdbot gateway wrap clawdbot devices list", "running"⟩

def procGwC2 : Process := ⟨"g2", "/usr/local/bin/start-moltbot.sh", "running"⟩

theorem claim2_witness :
    findExistingMoltbotProcess (.ok [procBothC2, procGwC2]) = some procGwC2 ∧
    isCliCommand procGwC2 = false ∧ isCliCommand procBothC2 = true ∧
    isGatewayProcess procBothC2 = true :=
  ⟨by decide, claim2_exclusion_precedence (.ok [procBothC2, procGwC2]) procGwC2 (by decide),
    by decide, by decide⟩

/-- C3: if the discovered existing process fails its readiness wait,
exactly one kill is attempted, on that process, before the new gateway
start; and a kill failure is logged but execution still reaches the new
start (the decomposition below holds for every `killResult`). -/
theorem claim3_kill_once_then_restart (host : HostEnv) (p : Process) (e : JSError)
    (hf : findExistingMoltbotProcess host.listResult = some p)
    (hw : host.existingWaitResult = .error e) :
    (∃ l1 l2, (ensureMoltbotGateway host).2 = l1 ++ Event.kill p.id :: l2 ∧
       (∀ pid, Event.kill pid ∉ l1) ∧ (∀ pid, Event.kill pid ∉ l2) ∧
       Event.startProcess gatewayCommand ∈ l2) ∧
    (∀ k, host.killResult = .error k →
       Event.logError "Failed to kill process" ∈ (ensureMoltbotGateway host).2) := by
  obtain ⟨ps, hl⟩ := find_some_ok host.listResult p hf
  rw [hl] at hf
  obtain ⟨tl, htl⟩ := startNew_head host
  constructor
  · refine ⟨[Event.mountR2, Event.listProcesses,
        Event.waitForPort p.id MOLTBOT_PORT STARTUP_TIMEOUT_MS],
      (match host.killResult with
       | .ok _ => []
       | .error _ => [Event.logError "Failed to kill process"]) ++ (startNewGateway host).2,
      ?_, ?_, ?_, ?_⟩
    · unfold ensureMoltbotGateway
      rw [hl, hf, hw]
      simp [discoveryEvents]
    · intro pid; simp
    · intro pid
      simp only [List.mem_append]
      rintro (hk | hk)
      · rcases hkr : host.killResult with k | u <;> rw [hkr] at hk <;> simp at hk
      · exact startNew_no_kill host pid hk
    · simp only [List.mem_append]
      right
      rw [htl]
      simp
  · intro k hk
    unfold ensureMoltbotGateway
    rw [hl, hf, hw, hk]
    simp [discoveryEvents]

def procC3 : Process := ⟨"g3", "clawdbot gateway --port 8080", "running"⟩

def hostC3 : HostEnv :=
  { listResult := .ok [procC3], existingWaitResult := .error ⟨true, "timed out"⟩,
    killResult := .error ⟨true, "no such process"⟩,
    startResult := .ok ⟨"n1", gatewayCommand, "starting"⟩, newWaitResult := .ok (),
    newGetLogsResult := .ok ⟨none, none⟩, catStartResult := .ok ⟨"c1", catCommand, "running"⟩,
    catGetLogsResult := .ok ⟨none, none⟩ }

theorem claim3_witness :
    (∃ l1 l2, (ensureMoltbotGateway hostC3).2 = l1 ++ Event.kill "g3" :: l2 ∧
       (∀ pid, Event.kill pid ∉ l1) ∧ (∀ pid, Event.kill pid ∉ l2) ∧
       Event.startProcess gatewayCommand ∈ l2) ∧
    Event.logError "Failed to kill process" ∈ (ensureMoltbotGateway hostC3).2 := by
  have h := claim3_kill_once_then_restart hostC3 procC3 ⟨true, "timed out"⟩ (by decide) rfl
  exact ⟨h.1, h.2 ⟨true, "no such process"⟩ rfl⟩

/-- C4: whenever the new-gateway start is reached (no existing process
discovered, or the discovered one failed its readiness wait) and
`startProcess` fails, `ensureMoltbotGateway` propagates the very same
error value and performs no `getLogs` call and no fallback log-file read
anywhere in the run. -/
theorem claim4_start_error_verbatim (host : HostEnv) (e : JSError)
    (hs : host.startResult = .error e)
    (hreach : findExistingMoltbotProcess host.listResult = none ∨
      ∃ p e2, findExistingMoltbotProcess host.listResult = some p ∧
        host.existingWaitResult = .error e2) :
    (ensureMoltbotGateway host).1 = .error e ∧
    (∀ pid, Event.getLogs pid ∉ (ensureMoltbotGateway host).2) ∧
    Event.startProcess catCommand ∉ (ensureMoltbotGateway host).2 := by
  have hsn : startNewGateway host = (.error e, [.startProcess gatewayCommand]) := by
    unfold startNewGateway
    rw [hs]
  rcases hreach with hf | ⟨p, e2, hf, hw⟩
  · unfold ensureMoltbotGateway
    rw [hf, hsn]
    rcases hl : host.listResult with err | ps <;>
      refine ⟨rfl, fun pid => ?_, ?_⟩ <;>
      simp [discoveryEvents, catCommand, gatewayCommand]
  · obtain ⟨ps, hl⟩ := find_some_ok host.listResult p hf
    rw [hl] at hf
    unfold ensureMoltbotGateway
    rw [hl, hf, hw, hsn]
    rcases hk : host.killResult with k | u <;>
      refine ⟨rfl, fun pid => ?_, ?_⟩ <;>
      simp [discoveryEvents, catCommand, gatewayCommand]

def hostC4 : HostEnv :=
  { listResult := .ok [], existingWaitResult := .ok (), killResult := .ok (),
    startResult := .error ⟨true, "spawn failed"⟩, newWaitResult := .ok (),
    newGetLogsResult := .ok ⟨none, none⟩, catStartResult := .ok ⟨"c1", catCommand, "running"⟩,
    catGetLogsResult := .ok ⟨none, none⟩ }

theorem claim4_witness :
    (ensureMoltbotGateway hostC4).1 = .error ⟨true, "spawn failed"⟩ ∧
    Event.getLogs "c1" ∉ (ensureMoltbotGateway hostC4).2 ∧
    Event.startProcess catCommand ∉ (ensureMoltbotGateway hostC4).2 := by
  have h := claim4_start_error_verbatim hostC4 ⟨true, "spawn failed"⟩ rfl (Or.inl (by decide))
  exact ⟨h.1, h.2.1 "c1", h.2.2⟩

/-- The diagnostic fallback block always begins by spawning the auxiliary
log-dump command; when that spawn succeeds it continues with the 3000 ms
settle delay and a `getLogs` on the spawned process. -/
theorem fallback_shape (cs : Except JSError Process) (cgl : Except JSError Logs) (e : JSError) :
    ∃ t, (fallbackDiagnostics cs cgl e).2 = Event.startProcess catCommand :: t ∧
      ∀ q, cs = .ok q →
        ∃ t2, t = Event.settleDelay 3000 :: Event.getLogs q.id :: t2 := by
  rcases cs with e4 | q
  · simp only [fallbackDiagnostics]
    split
    · exact ⟨[], rfl, fun q hq => by simp at hq⟩
    · exact ⟨[Event.logError "Failed to read log file"], rfl, fun q hq => by simp at hq⟩
  · rcases cgl with e5 | L
    · simp only [fallbackDiagnostics]
      split
      · exact ⟨[Event.settleDelay 3000, Event.getLogs q.id], rfl,
          fun q2 hq => by simp at hq; subst hq; exact ⟨[], rfl⟩⟩
      · exact ⟨[Event.settleDelay 3000, Event.getLogs q.id,
          Event.logError "Failed to read log file"], rfl,
          fun q2 hq => by
            simp at hq; subst hq
            exact ⟨[Event.logError "Failed to read log file"], rfl⟩⟩
    · simp only [fallbackDiagnostics]
      exact ⟨[Event.settleDelay 3000, Event.getLogs q.id], rfl,
        fun q2 hq => by simp at hq; subst hq; exact ⟨[], rfl⟩⟩

def hostC5x : HostEnv :=
  { listResult := .ok [], existingWaitResult := .ok (), killResult := .ok (),
    startResult := .ok ⟨"p1", gatewayCommand, "starting"⟩,
    newWaitResult := .error ⟨true, "waitForPort timed out"⟩,
    newGetLogsResult := .ok ⟨some "rich diagnostic output", none⟩,
    catStartResult := .ok ⟨"p2", catCommand, "running"⟩,
    catGetLogsResult := .ok ⟨some "log file contents", none⟩ }

/-- C5 is false of the code as stated: on this run the fresh process
"p1" fails its readiness wait, the log API of the host would have returned
non-empty output for it, and yet the auxiliary log-dump command is
spawned while no `getLogs` call is ever made on "p1": the fallback is
not conditional on the log API being empty or unavailable, which is
never consulted on this path. -/
theorem claim5_counterexample :
    hostC5x.newGetLogsResult = .ok ⟨some "rich diagnostic output", none⟩ ∧
    Event.startProcess catCommand ∈ (ensureMoltbotGateway hostC5x).2 ∧
    Event.getLogs "p1" ∉ (ensureMoltbotGateway hostC5x).2 := by decide

/-- C5 (amended): when the readiness wait on a freshly started process
fails, `ensureMoltbotGateway` performs no `getLogs` call before spawning
the auxiliary read-only log-dump command — the log API of the host is not
consulted on the failure path — and when that spawn succeeds it pauses
for the bounded 3000 ms settle delay and then reads the auxiliary
output of the auxiliary process. -/
theorem claim5_direct_fallback (host : HostEnv) (p : Process) (e : JSError)
    (hs : host.startResult = .ok p)
    (hw : host.newWaitResult = .error e)
    (hreach : findExistingMoltbotProcess host.listResult = none ∨
      ∃ p0 e0, findExistingMoltbotProcess host.listResult = some p0 ∧
        host.existingWaitResult = .error e0) :
    ∃ pre rest,
      (ensureMoltbotGateway host).2 = pre ++ Event.startProcess catCommand :: rest ∧
      (∀ pid, Event.getLogs pid ∉ pre) ∧
      (∀ q, host.catStartResult = .ok q →
        ∃ t2, rest = Event.settleDelay 3000 :: Event.getLogs q.id :: t2) := by
  obtain ⟨t, ht, hq⟩ := fallback_shape host.catStartResult host.catGetLogsResult e
  have hsn : startNewGateway host =
      ((fallbackDiagnostics host.catStartResult host.catGetLogsResult e).1,
        [.startProcess gatewayCommand, .waitForPort p.id MOLTBOT_PORT STARTUP_TIMEOUT_MS] ++
          (fallbackDiagnostics host.catStartResult host.catGetLogsResult e).2) := by
    unfold startNewGateway
    rw [hs, hw]
  rcases hreach with hf | ⟨p0, e0, hf, hw0⟩
  · refine ⟨Event.mountR2 :: discoveryEvents host.listResult ++
      [.startProcess gatewayCommand, .waitForPort p.id MOLTBOT_PORT STARTUP_TIMEOUT_MS],
      t, ?_, ?_, hq⟩
    · unfold ensureMoltbotGateway
      rw [hf, hsn, ht]
      simp
    · intro pid h
      simp at h
      rcases mem_discoveryEvents host.listResult _ h with h2 | h2 <;> simp at h2
  · refine ⟨Event.mountR2 :: discoveryEvents host.listResult ++
      [.waitForPort p0.id MOLTBOT_PORT STARTUP_TIMEOUT_MS, .kill p0.id] ++
      (match host.killResult with
       | .ok _ => []
       | .error _ => [Event.logError "Failed to kill process"]) ++
      [.startProcess gatewayCommand, .waitForPort p.id MOLTBOT_PORT STARTUP_TIMEOUT_MS],
      t, ?_, ?_, hq⟩
    · unfold ensureMoltbotGateway
      rw [hf, hw0, hsn, ht]
      simp
    · intro pid h
      rcases hk : host.killResult with k | u <;> rw [hk] at h <;> simp at h <;>
        rcases mem_discoveryEvents host.listResult _ h with h2 | h2 <;> simp at h2

def hostC5w : HostEnv :=
  { listResult := .ok [], existingWaitResult := .ok (), killResult := .ok (),
    startResult := .ok ⟨"p1", gatewayCommand, "starting"⟩,
    newWaitResult := .error ⟨true, "waitForPort timed out"⟩,
    newGetLogsResult := .ok ⟨none, none⟩,
    catStartResult := .ok ⟨"p2", catCommand, "running"⟩,
    catGetLogsResult := .ok ⟨some "boot failure trace", none⟩ }

theorem claim5_witness :
    ∃ pre rest,
      (ensureMoltbotGateway hostC5w).2 = pre ++ Event.startProcess catCommand :: rest ∧
      (∀ pid, Event.getLogs pid ∉ pre) ∧
      (∀ q, hostC5w.catStartResult = .ok q →
        ∃ t2, rest = Event.settleDelay 3000 :: Event.getLogs q.id :: t2) :=
  claim5_direct_fallback hostC5w ⟨"p1", gatewayCommand, "starting"⟩
    ⟨true, "waitForPort timed out"⟩ rfl rfl (Or.inl (by decide))

/-- A character list always starts with itself. -/
theorem charsStart_refl (l : List Char) : charsStart l l = true := by
  induction l with
  | nil => rfl
  | cons a t ih => simp [charsStart, ih]

/-- A character list is found as a substring at the end of any list it is
appended to. -/
theorem charsSearch_append (pat l : List Char) : charsSearch pat (l ++ pat) = true := by
  induction l with
  | nil =>
    cases pat with
    | nil => rfl
    | cons c t => simp [charsSearch, charsStart_refl]
  | cons c t ih => simp [charsSearch, ih]

/-- `(a ++ b).includes(b)` always holds. -/
theorem strIncludes_append (a b : String) : strIncludes (a ++ b) b = true := by
  show charsSearch b.data (a ++ b).data = true
  have hd : (a ++ b).data = a.data ++ b.data := rfl
  rw [hd]
  exact charsSearch_append b.data a.data

/-- Under the hypotheses of the restart path, the result of
`ensureMoltbotGateway` is the error computed by the diagnostic fallback
block. -/
theorem ensure_result_fallback (host : HostEnv) (p : Process) (e : JSError)
    (hs : host.startResult = .ok p)
    (hw : host.newWaitResult = .error e)
    (hreach : findExistingMoltbotProcess host.listResult = none ∨
      ∃ p0 e0, findExistingMoltbotProcess host.listResult = some p0 ∧
        host.existingWaitResult = .error e0) :
    (ensureMoltbotGateway host).1 =
      (fallbackDiagnostics host.catStartResult host.catGetLogsResult e).1 := by
  have hsn : (startNewGateway host).1 =
      (fallbackDiagnostics host.catStartResult host.catGetLogsResult e).1 := by
    unfold startNewGateway
    rw [hs, hw]
  rcases hreach with hf | ⟨p0, e0, hf, hw0⟩ <;>
    unfold ensureMoltbotGateway
  · rw [hf]
    exact hsn
  · rw [hf, hw0]
    exact hsn

def hostC6x : HostEnv :=
  { listResult := .ok [], existingWaitResult := .ok (), killResult := .ok (),
    startResult := .ok ⟨"p1", gatewayCommand, "starting"⟩,
    newWaitResult := .error ⟨true, "waitForPort timed out"⟩,
    newGetLogsResult := .ok ⟨none, none⟩,
    catStartResult := .error ⟨true, "Moltbot gateway failed: injected spawn error"⟩,
    catGetLogsResult := .ok ⟨none, none⟩ }

/-- C6 is false of the code as stated: on this run the fallback log read
itself fails (spawning the auxiliary command throws), yet the surfaced
error is that fallback failure, not the original readiness error
`waitForPort timed out`, because the thrown value is an `Error` whose
message happens to start with `Moltbot gateway failed` (the rethrow
guard of process.ts line 120). -/
theorem claim6_counterexample :
    (ensureMoltbotGateway hostC6x).1 =
      .error ⟨true, "Moltbot gateway failed: injected spawn error"⟩ ∧
    (ensureMoltbotGateway hostC6x).1 ≠ .error ⟨true, "waitForPort timed out"⟩ := by
  decide

/-- C6 (amended): when the readiness wait on a freshly started process
fails, `ensureMoltbotGateway` surfaces a single descriptive error
containing the recovered diagnostic text when the fallback log read
succeeds; when the fallback log read fails it surfaces the original
readiness error — unless the fallback failure is itself an `Error` whose
message starts with `Moltbot gateway failed`, in which case that value
is rethrown instead. -/
theorem claim6_error_surface (host : HostEnv) (p : Process) (e : JSError)
    (hs : host.startResult = .ok p)
    (hw : host.newWaitResult = .error e)
    (hreach : findExistingMoltbotProcess host.listResult = none ∨
      ∃ p0 e0, findExistingMoltbotProcess host.listResult = some p0 ∧
        host.existingWaitResult = .error e0) :
    (∀ q L, host.catStartResult = .ok q → host.catGetLogsResult = .ok L →
       (ensureMoltbotGateway host).1 =
         .error ⟨true, "Moltbot gateway failed to start. Log: " ++ fullLogOf L⟩ ∧
       strIncludes ("Moltbot gateway failed to start. Log: " ++ fullLogOf L)
         (fullLogOf L) = true) ∧
    (∀ err, host.catStartResult = .error err → isGatewayFailedError err = false →
       (ensureMoltbotGateway host).1 = .error e) ∧
    (∀ q err, host.catStartResult = .ok q → host.catGetLogsResult = .error err →
       isGatewayFailedError err = false → (ensureMoltbotGateway host).1 = .error e) ∧
    (∀ err, host.catStartResult = .error err → isGatewayFailedError err = true →
       (ensureMoltbotGateway host).1 = .error err) := by
  have hres := ensure_result_fallback host p e hs hw hreach
  refine ⟨?_, ?_, ?_, ?_⟩
  · intro q L hcs hcg
    rw [hres, hcs, hcg]
    exact ⟨rfl, strIncludes_append _ _⟩
  · intro err hcs herr
    rw [hres, hcs]
    simp [fallbackDiagnostics, herr]
  · intro q err hcs hcg herr
    rw [hres, hcs, hcg]
    simp [fallbackDiagnostics, herr]
  · intro err hcs herr
    rw [hres, hcs]
    simp [fallbackDiagnostics, herr]

def hostC6w : HostEnv :=
  { listResult := .ok [], existingWaitResult := .ok (), killResult := .ok (),
    startResult := .ok ⟨"p1", gatewayCommand, "starting"⟩,
    newWaitResult := .error ⟨true, "waitForPort timed out"⟩,
    newGetLogsResult := .ok ⟨none, none⟩,
    catStartResult := .ok ⟨"p2", catCommand, "running"⟩,
    catGetLogsResult := .ok ⟨some "boot failure trace", none⟩ }

theorem claim6_witness :
    (ensureMoltbotGateway hostC6w).1 =
      .error ⟨true, "Moltbot gateway failed to start. Log: " ++
        fullLogOf ⟨some "boot failure trace", none⟩⟩ ∧
    strIncludes ("Moltbot gateway failed to start. Log: " ++
        fullLogOf ⟨some "boot failure trace", none⟩)
      (fullLogOf ⟨some "boot failure trace", none⟩) = true := by
  have h := claim6_error_surface hostC6w ⟨"p1", gatewayCommand, "starting"⟩
    ⟨true, "waitForPort timed out"⟩ rfl rfl (Or.inl (by decide))
  exact h.1 ⟨"p2", catCommand, "running"⟩ ⟨some "boot failure trace", none⟩ rfl rfl

/-- Starting a new gateway never reads the process listing. -/
theorem startNew_list_irrel (host : HostEnv) (lr : Except JSError (List Process)) :
    startNewGateway { host with listResult := lr } = startNewGateway host := by
  obtain ⟨lr0, ew, kr, sr, nw, ngl, cs, cgl⟩ := host
  rfl

/-- C7: an error while listing processes is recovered inside discovery:
it is logged, discovery reports no process found, and
`ensureMoltbotGateway` behaves exactly as it would on an empty process
listing — the listing error value is never propagated. -/
theorem claim7_listing_error_soft (host : HostEnv) (err : JSError)
    (hl : host.listResult = .error err) :
    findExistingMoltbotProcess host.listResult = none ∧
    Event.logError "Could not list processes" ∈ (ensureMoltbotGateway host).2 ∧
    (ensureMoltbotGateway host).1 =
      (ensureMoltbotGateway { host with listResult := .ok [] }).1 := by
  refine ⟨by rw [hl]; rfl, ?_, ?_⟩
  · unfold ensureMoltbotGateway
    rw [hl]
    simp [findExistingMoltbotProcess, discoveryEvents]
  · unfold ensureMoltbotGateway
    rw [hl, startNew_list_irrel host (Except.ok [])]
    simp [findExistingMoltbotProcess, findLoop, discoveryEvents]

def hostC7 : HostEnv :=
  { listResult := .error ⟨true, "host unreachable"⟩, existingWaitResult := .ok (),
    killResult := .ok (), startResult := .ok ⟨"n1", gatewayCommand, "starting"⟩,
    newWaitResult := .ok (), newGetLogsResult := .ok ⟨none, none⟩,
    catStartResult := .ok ⟨"c1", catCommand, "running"⟩,
    catGetLogsResult := .ok ⟨none, none⟩ }

theorem claim7_witness :
    findExistingMoltbotProcess hostC7.listResult = none ∧
    Event.logError "Could not list processes" ∈ (ensureMoltbotGateway hostC7).2 ∧
    (ensureMoltbotGateway hostC7).1 =
      (ensureMoltbotGateway { hostC7 with listResult := .ok [] }).1 :=
  claim7_listing_error_soft hostC7 ⟨true, "host unreachable"⟩ rfl

/-- The full condition under which the discovery loop accepts a process:
gateway signature, not an excluded CLI command, and live status. -/
def matchesGood (p : Process) : Bool :=
  (isGatewayProcess p && !isCliCommand p) &&
    (p.status == "starting" || p.status == "running")

/-- The discovery loop returns exactly the first acceptable process. -/
theorem findLoop_iff (ps : List Process) (p : Process) :
    findLoop ps = some p ↔
      matchesGood p = true ∧
      ∃ l1 l2, ps = l1 ++ p :: l2 ∧ ∀ q ∈ l1, matchesGood q = false := by
  induction ps with
  | nil =>
    simp only [findLoop]
    constructor
    · intro h
      simp at h
    · rintro ⟨hp, l1, l2, hsplit, hbad⟩
      cases l1 <;> simp at hsplit
  | cons q rest ih =>
    by_cases hq : matchesGood q = true
    · have h1 : (isGatewayProcess q && !isCliCommand q) = true := by
        unfold matchesGood at hq
        exact ((Bool.and_eq_true _ _).mp hq).1
      have h2 : (q.status == "starting" || q.status == "running") = true := by
        unfold matchesGood at hq
        exact ((Bool.and_eq_true _ _).mp hq).2
      simp only [findLoop, h1, h2, if_true]
      constructor
      · intro h
        simp only [Option.some.injEq] at h
        subst h
        exact ⟨hq, [], rest, rfl, by simp⟩
      · rintro ⟨hp, l1, l2, hsplit, hbad⟩
        cases l1 with
        | nil =>
          simp at hsplit
          obtain ⟨rfl, rfl⟩ := hsplit
          rfl
        | cons x l1t =>
          simp at hsplit
          obtain ⟨rfl, hrest⟩ := hsplit
          have hc := hbad q (by simp)
          rw [hq] at hc
          cases hc
    · have hqf : matchesGood q = false := by
        cases hmg : matchesGood q
        · rfl
        · exact absurd hmg hq
      have hskip : findLoop (q :: rest) = findLoop rest := by
        have hqf2 := hqf
        unfold matchesGood at hqf2
        rcases h1 : (isGatewayProcess q && !isCliCommand q) with _ | _
        · simp [findLoop, h1]
        · have h2 : (q.status == "starting" || q.status == "running") = false := by
            rw [h1] at hqf2
            simpa using hqf2
          simp [findLoop, h1, h2]
      rw [hskip, ih]
      constructor
      · rintro ⟨hp, l1, l2, rfl, hbad⟩
        refine ⟨hp, q :: l1, l2, rfl, ?_⟩
        intro x hx
        rcases List.mem_cons.mp hx with rfl | hx2
        · exact hqf
        · exact hbad x hx2
      · rintro ⟨hp, l1, l2, hsplit, hbad⟩
        cases l1 with
        | nil =>
          simp at hsplit
          obtain ⟨rfl, rfl⟩ := hsplit
          rw [hqf] at hp
          cases hp
        | cons x l1t =>
          simp at hsplit
          obtain ⟨rfl, hrest⟩ := hsplit
          exact ⟨hp, l1t, l2, hrest, fun y hy => hbad y (List.mem_cons_of_mem _ hy)⟩

/-- C8: among the listed processes, discovery returns `some p` exactly
when `p` is the first list element satisfying the full acceptance
condition (signature match, not excluded, status `starting` or
`running`); in particular a matching process whose status is `exited`,
or anything other than `starting`/`running`, is never returned. -/
theorem claim8_first_live_match (ps : List Process) (p : Process) :
    (findExistingMoltbotProcess (.ok ps) = some p ↔
      matchesGood p = true ∧
      ∃ l1 l2, ps = l1 ++ p :: l2 ∧ ∀ q ∈ l1, matchesGood q = false) ∧
    (findExistingMoltbotProcess (.ok ps) = some p →
      p.status = "starting" ∨ p.status = "running") := by
  constructor
  · simpa [findExistingMoltbotProcess] using findLoop_iff ps p
  · intro h
    have hall := (findLoop_iff ps p).mp (by simpa [findExistingMoltbotProcess] using h)
    have hm := hall.1
    unfold matchesGood at hm
    have h2 := ((Bool.and_eq_true _ _).mp hm).2
    rcases (Bool.or_eq_true _ _).mp h2 with h3 | h3
    · exact Or.inl (eq_of_beq h3)
    · exact Or.inr (eq_of_beq h3)

def procC8a : Process := ⟨"a", "clawdbot gateway run", "exited"⟩

def procC8b : Process := ⟨"b", "clawdbot gateway run", "running"⟩

theorem claim8_witness :
    findExistingMoltbotProcess (.ok [procC8a, procC8b]) = some procC8b ∧
    (procC8b.status = "starting" ∨ procC8b.status = "running") := by
  have h := claim8_first_live_match [procC8a, procC8b] procC8b
  have hfind : findExistingMoltbotProcess (.ok [procC8a, procC8b]) = some procC8b := by
    decide
  exact ⟨hfind, h.2 hfind⟩

/-- C9: in dev mode or E2E test mode the middleware sets `accessUser` to
the fixed dev identity and invokes the downstream handler, regardless of
the request contents, the JWT verifier, the response type, and every
other part of the environment (Access configuration and Basic Auth
credentials included). -/
theorem claim9_dev_bypass (opts : AccessMiddlewareOptions) (env : MoltbotEnv) (req : Request)
    (verifyAccessJWT : String → String → String → Except JSError AccessPayload)
    (h : isDevMode env = true ∨ isE2ETestMode env = true) :
    createAccessMiddleware opts env req verifyAccessJWT =
      .next ⟨"dev@localhost", "Dev User"⟩ := by
  unfold createAccessMiddleware
  rcases h with h | h <;> rw [h] <;> simp

def envC9 : MoltbotEnv :=
  { DEV_MODE := some "true", CF_ACCESS_TEAM_DOMAIN := some "team.example.com",
    CF_ACCESS_AUD := some "audience-tag", BASIC_AUTH_USER := some "user",
    BASIC_AUTH_PASS := some "pass" }

def verifyReject : String → String → String → Except JSError AccessPayload :=
  fun _ _ _ => .error ⟨true, "signature verification failed"⟩

theorem claim9_witness :
    createAccessMiddleware ⟨.json, false⟩ envC9 ⟨some "header.jwt.token", none⟩ verifyReject =
      .next ⟨"dev@localhost", "Dev User"⟩ :=
  claim9_dev_bypass ⟨.json, false⟩ envC9 ⟨some "header.jwt.token", none⟩ verifyReject
    (Or.inl (by decide))

/-- C10: outside dev/E2E mode with both Access variables set (truthy),
the middleware invokes the downstream handler only on an extracted and
verified JWT; a missing JWT yields the 302 login redirect exactly in the
html-with-redirectOnMissing configuration and a 401 response otherwise; a
rejected JWT yields a 401 response; and the Basic Auth and not-configured
(500) branches are unreachable. -/
theorem claim10_cf_access (opts : AccessMiddlewareOptions) (env : MoltbotEnv) (req : Request)
    (verifyAccessJWT : String → String → String → Except JSError AccessPayload)
    (d a : String)
    (hdev : isDevMode env = false) (he2e : isE2ETestMode env = false)
    (hd : truthy env.CF_ACCESS_TEAM_DOMAIN = some d)
    (ha : truthy env.CF_ACCESS_AUD = some a) :
    (∀ u, createAccessMiddleware opts env req verifyAccessJWT = .next u →
       ∃ j payload, extractJWT req = some j ∧ verifyAccessJWT j d a = .ok payload ∧
         u = ⟨payload.email, payload.name⟩) ∧
    (extractJWT req = none →
       (opts.type = .html ∧ opts.redirectOnMissing = true ∧
          createAccessMiddleware opts env req verifyAccessJWT =
            .redirect ("https://" ++ d) 302) ∨
       is401 (createAccessMiddleware opts env req verifyAccessJWT)) ∧
    (∀ j err, extractJWT req = some j → verifyAccessJWT j d a = .error err →
       is401 (createAccessMiddleware opts env req verifyAccessJWT)) ∧
    (∀ u pw au, createAccessMiddleware opts env req verifyAccessJWT ≠
       .basicAuthDelegate u pw au) ∧
    (∀ st b, createAccessMiddleware opts env req verifyAccessJWT = .jsonResp st b →
       st = 401) ∧
    (∀ st b, createAccessMiddleware opts env req verifyAccessJWT = .htmlResp st b →
       st = 401) := by
  have hout : createAccessMiddleware opts env req verifyAccessJWT =
      cfAccessCheck opts req verifyAccessJWT d a := by
    unfold createAccessMiddleware
    rw [hdev, he2e, hd, ha]
    simp
  refine ⟨?_, ?_, ?_, ?_, ?_, ?_⟩
  · intro u hu
    rw [hout] at hu
    rcases hx : extractJWT req with _ | j
    · rcases opts with ⟨ty, rom⟩
      rcases ty <;> rcases rom <;> simp [cfAccessCheck, hx] at hu
    · rcases hv : verifyAccessJWT j d a with errv | pl
      · rcases opts with ⟨ty, rom⟩
        rcases ty <;> simp [cfAccessCheck, hx, hv] at hu
      · simp only [cfAccessCheck, hx, hv] at hu
        injection hu with h1
        exact ⟨j, pl, rfl, hv, h1.symm⟩
  · intro hnone
    rw [hout]
    rcases opts with ⟨ty, rom⟩
    rcases ty <;> rcases rom <;> simp [cfAccessCheck, hnone, is401]
  · intro j err hj hv
    rw [hout]
    rcases opts with ⟨ty, rom⟩
    rcases ty <;> simp [cfAccessCheck, hj, hv, is401]
  · intro u pw au
    rw [hout]
    rcases hx : extractJWT req with _ | j
    · rcases opts with ⟨ty, rom⟩
      rcases ty <;> rcases rom <;> simp [cfAccessCheck, hx]
    · rcases hv : verifyAccessJWT j d a with errv | pl <;>
        rcases opts with ⟨ty, rom⟩ <;> rcases ty <;> simp [cfAccessCheck, hx, hv]
  · intro st b hsb
    rw [hout] at hsb
    rcases hx : extractJWT req with _ | j
    · rcases opts with ⟨ty, rom⟩
      rcases ty <;> rcases rom <;> (simp [cfAccessCheck, hx] at hsb; try simp_all)
    · rcases hv : verifyAccessJWT j d a with errv | pl
      · rcases opts with ⟨ty, rom⟩
        rcases ty <;> (simp [cfAccessCheck, hx, hv] at hsb; try simp_all)
      · simp [cfAccessCheck, hx, hv] at hsb
  · intro st b hsb
    rw [hout] at hsb
    rcases hx : extractJWT req with _ | j
    · rcases opts with ⟨ty, rom⟩
      rcases ty <;> rcases rom <;> (simp [cfAccessCheck, hx] at hsb; try simp_all)
    · rcases hv : verifyAccessJWT j d a with errv | pl
      · rcases opts with ⟨ty, rom⟩
        rcases ty <;> (simp [cfAccessCheck, hx, hv] at hsb; try simp_all)
      · simp [cfAccessCheck, hx, hv] at hsb

def envC10 : MoltbotEnv :=
  { CF_ACCESS_TEAM_DOMAIN := some "team.example.com", CF_ACCESS_AUD := some "audience-tag",
    BASIC_AUTH_USER := some "user", BASIC_AUTH_PASS := some "pass" }

theorem claim10_witness :
    is401 (createAccessMiddleware ⟨.json, false⟩ envC10 ⟨none, none⟩ verifyReject) := by
  have h := claim10_cf_access ⟨.json, false⟩ envC10 ⟨none, none⟩ verifyReject
    "team.example.com" "audience-tag" rfl rfl (by decide) (by decide)
  rcases h.2.1 rfl with hredir | h401
  · exact absurd hredir.1 (by decide)
  · exact h401

end MoltWorker
